import Mathlib

/-!
Shallow embedding of the DevPad submission-grading workflow, translated
from src/models.py and src/routes.py: the data model (CodingProblem,
TestCase, ProblemAssignment, CodeSubmission), the callback endpoint
submission_callback, the polling endpoint get_submission_status and the
submission-creation POST branch of view_problem.

Scores are modelled as rationals: the columns are declared Integer, but
routes.py assigns the Python true-division result
problem.total_score / num_private (a float) and arbitrary JSON numbers to
them, and the storage layer keeps whatever value was assigned.
-/

inductive ScoringType
  | EQUAL
  | CUSTOM
deriving DecidableEq

/-- models.py lines 211-226: a test case row. -/
structure TestCase where
  id : Nat
  problem_id : Nat
  is_public : Bool
  input_data : String
  expected_output : String
  score : ℚ
deriving DecidableEq

/-- models.py lines 130-209: a coding-problem row (the fields the
submission workflow reads). -/
structure CodingProblem where
  id : Nat
  creator_id : Nat
  is_open : Bool
  total_score : ℚ
  scoring_type : ScoringType
deriving DecidableEq

/-- models.py lines 21-33: one ProblemAssignment row, keyed by
(user_id, problem_id). -/
structure ProblemAssignment where
  user_id : Nat
  problem_id : Nat
  best_score : ℚ
  best_submission_id : Option Nat
deriving DecidableEq

/-- models.py lines 228-250: a code-submission row. -/
structure CodeSubmission where
  id : Nat
  user_id : Nat
  problem_id : Nat
  language : String
  code : String
  status : String
  score_achieved : ℚ
  total_score : ℚ
  execution_output : Option String
deriving DecidableEq

/-- The committed database state the submission workflow touches. -/
structure DBState where
  problems : List CodingProblem
  testCases : List TestCase
  assignments : List ProblemAssignment
  submissions : List CodeSubmission
deriving DecidableEq

def findProblem (st : DBState) (pid : Nat) : Option CodingProblem :=
  st.problems.find? (fun p => p.id == pid)

def findSubmission (st : DBState) (sid : Nat) : Option CodeSubmission :=
  st.submissions.find? (fun s => s.id == sid)

/-- ProblemAssignment.query.get((user_id, problem_id)): primary-key lookup. -/
def findAssignment (st : DBState) (uid pid : Nat) : Option ProblemAssignment :=
  st.assignments.find? (fun a => a.user_id == uid && a.problem_id == pid)

/-- routes.py lines 120-128: authenticate a callback from the X-Api-Key
header.  An absent or empty header is falsy and fails; otherwise the sent
key must equal the configured EXECUTION_API_KEY (itself possibly unset). -/
def get_user_from_header (cfgKey : Option String) (sentKey : Option String) : Bool :=
  match sentKey with
  | none => false
  | some k => if k = "" then false else some k == cfgKey

/-- The JSON body of a callback request, with all the keys the handler
reads present (a missing key raises and rolls the whole request back,
which no claim exercises). -/
structure CallbackData where
  submission_id : Nat
  status : String
  score_achieved : ℚ
  total_score : ℚ
  output : String
deriving DecidableEq

/-- The observable outcome of the callback endpoint: which branch
answered, hence which HTTP status and which log line were produced. -/
inductive CallbackOutcome
  | forbidden
  | submissionMissing
  | successNoAssignment
  | success
deriving DecidableEq

def CallbackOutcome.httpStatus : CallbackOutcome → Nat
  | .forbidden => 403
  | .submissionMissing => 404
  | .successNoAssignment => 200
  | .success => 200

/-- routes.py lines 520-523: the four field writes the callback performs
on the matched submission. -/
def applyCallbackFields (data : CallbackData) (s : CodeSubmission) : CodeSubmission :=
  { s with status := data.status, score_achieved := data.score_achieved,
           total_score := data.total_score, execution_output := some data.output }

/-- routes.py lines 528-529: the two field writes on the assignment when
the reported score beats the cached best. -/
def applyBestUpdate (data : CallbackData) (sid : Nat) (x : ProblemAssignment) :
    ProblemAssignment :=
  { x with best_score := data.score_achieved, best_submission_id := some sid }

/-- routes.py lines 502-540, submission_callback: authenticate via the
shared key, look the submission up, overwrite its status / scores /
output from the posted JSON, then update the (user, problem) assignment's
best_score and best_submission_id when the reported score is strictly
greater; commit.  submissionMissing carries the logged warning branch and
successNoAssignment the logged missing-assignment branch. -/
def submission_callback (cfgKey : Option String) (sentKey : Option String)
    (data : CallbackData) (st : DBState) : DBState × CallbackOutcome :=
  if get_user_from_header cfgKey sentKey then
    match findSubmission st data.submission_id with
    | none => (st, .submissionMissing)
    | some sub =>
      let st1 : DBState :=
        { st with submissions := st.submissions.map (fun s =>
            if s.id == data.submission_id then applyCallbackFields data s else s) }
      match findAssignment st sub.user_id sub.problem_id with
      | none => (st1, .successNoAssignment)
      | some a =>
        if data.score_achieved > a.best_score then
          ({ st1 with assignments := st1.assignments.map (fun x =>
              if x.user_id == sub.user_id && x.problem_id == sub.problem_id then
                applyBestUpdate data sub.id x
              else x) }, .success)
        else (st1, .success)
  else (st, .forbidden)

theorem find_update_eq {α : Type} (p : α → Bool) (f : α → α)
    (hf : ∀ a, p a = true → p (f a) = true) (l : List α) :
    (l.map (fun a => if p a then f a else a)).find? p = (l.find? p).map f := by
  induction l with
  | nil => rfl
  | cons x xs ih =>
    by_cases hx : p x = true
    · rw [List.map_cons, if_pos hx, List.find?_cons_of_pos _ (hf x hx),
        List.find?_cons_of_pos _ hx, Option.map_some']
    · rw [List.map_cons, if_neg hx, List.find?_cons_of_neg _ hx,
        List.find?_cons_of_neg _ hx, ih]

theorem map_update_of_none {α : Type} (p : α → Bool) (f : α → α) (l : List α)
    (h : ∀ a ∈ l, p a = false) : l.map (fun a => if p a then f a else a) = l := by
  induction l with
  | nil => rfl
  | cons x xs ih =>
    have hx : p x = false := h x (List.mem_cons_self x xs)
    rw [List.map_cons, if_neg (by simp [hx]),
      ih (fun a ha => h a (List.mem_cons_of_mem _ ha))]

/-- C1: a successfully authenticated callback whose submission id matches
an existing Submission with an Assignment for its (student, problem) pair
writes status, score_achieved, total_score and output onto the
Submission, and updates best_score / best_submission iff the reported
score is strictly greater than the cached best_score, leaving the
assignments untouched otherwise. -/
theorem C1_callback_reconciliation (cfgKey sentKey : Option String)
    (data : CallbackData) (st : DBState) (sub : CodeSubmission) (a : ProblemAssignment)
    (hauth : get_user_from_header cfgKey sentKey = true)
    (hsub : findSubmission st data.submission_id = some sub)
    (ha : findAssignment st sub.user_id sub.problem_id = some a) :
    (submission_callback cfgKey sentKey data st).2 = CallbackOutcome.success ∧
    findSubmission (submission_callback cfgKey sentKey data st).1 data.submission_id =
      some (applyCallbackFields data sub) ∧
    findAssignment (submission_callback cfgKey sentKey data st).1 sub.user_id sub.problem_id =
      some (if data.score_achieved > a.best_score then applyBestUpdate data sub.id a else a) ∧
    (¬ data.score_achieved > a.best_score →
      (submission_callback cfgKey sentKey data st).1.assignments = st.assignments) := by
  have hsub' : st.submissions.find? (fun s => s.id == data.submission_id) = some sub := hsub
  have ha' : st.assignments.find?
      (fun x => x.user_id == sub.user_id && x.problem_id == sub.problem_id) = some a := ha
  by_cases hgt : data.score_achieved > a.best_score
  · have hcall : submission_callback cfgKey sentKey data st =
        ({ st with
            submissions := st.submissions.map (fun s =>
              if s.id == data.submission_id then applyCallbackFields data s else s),
            assignments := st.assignments.map (fun x =>
              if x.user_id == sub.user_id && x.problem_id == sub.problem_id then
                applyBestUpdate data sub.id x
              else x) }, CallbackOutcome.success) := by
      unfold submission_callback
      rw [hauth]
      simp only [eq_self_iff_true, if_true, hsub, ha, if_pos hgt]
    rw [hcall]
    refine ⟨rfl, ?_, ?_, fun hc => absurd hgt hc⟩
    · simp only [findSubmission]
      rw [find_update_eq (fun s => s.id == data.submission_id)
        (applyCallbackFields data) (fun s hs => hs), hsub', Option.map_some']
    · simp only [findAssignment]
      rw [find_update_eq (fun x => x.user_id == sub.user_id && x.problem_id == sub.problem_id)
        (applyBestUpdate data sub.id) (fun x hx => hx), ha', Option.map_some', if_pos hgt]
  · have hcall : submission_callback cfgKey sentKey data st =
        ({ st with
            submissions := st.submissions.map (fun s =>
              if s.id == data.submission_id then applyCallbackFields data s else s) },
          CallbackOutcome.success) := by
      unfold submission_callback
      rw [hauth]
      simp only [eq_self_iff_true, if_true, hsub, ha, if_neg hgt]
    rw [hcall]
    refine ⟨rfl, ?_, ?_, fun _ => rfl⟩
    · simp only [findSubmission]
      rw [find_update_eq (fun s => s.id == data.submission_id)
        (applyCallbackFields data) (fun s hs => hs), hsub', Option.map_some']
    · simp only [findAssignment]
      rw [ha', if_neg hgt]

/-- A pending submission by student 1 for problem 1. -/
def sub1 : CodeSubmission :=
  { id := 1, user_id := 1, problem_id := 1, language := "python", code := "print(1)",
    status := "Pending", score_achieved := 0, total_score := 0, execution_output := none }

/-- Student 1 is assigned problem 1 with a cached best score of 40. -/
def asg40 : ProblemAssignment :=
  { user_id := 1, problem_id := 1, best_score := 40, best_submission_id := none }

/-- An open, equally scored problem worth 100 created by instructor 2. -/
def prob1 : CodingProblem :=
  { id := 1, creator_id := 2, is_open := true, total_score := 100,
    scoring_type := ScoringType.EQUAL }

/-- A small concrete database with one problem, one public and one
private test case, one assignment and one pending submission. -/
def baseSt : DBState :=
  { problems := [prob1],
    testCases := [{ id := 1, problem_id := 1, is_public := true, input_data := "1",
                    expected_output := "1", score := 0 },
                  { id := 2, problem_id := 1, is_public := false, input_data := "2",
                    expected_output := "4", score := 0 }],
    assignments := [asg40],
    submissions := [sub1] }

/-- A callback reporting 70 out of 100, Passed, for submission 1. -/
def cb70 : CallbackData :=
  { submission_id := 1, status := "Passed", score_achieved := 70, total_score := 100,
    output := "ok" }

theorem C1_callback_reconciliation_witness :
    (submission_callback (some "sekrit") (some "sekrit") cb70 baseSt).2 =
      CallbackOutcome.success :=
  (C1_callback_reconciliation (some "sekrit") (some "sekrit") cb70 baseSt sub1 asg40
    rfl rfl rfl).1

/-- C3: a callback whose shared secret is absent or differs from the
configured key is rejected with a 403 and the state, hence every
Submission and every Assignment row, is left unchanged. -/
theorem C3_bad_secret_no_mutation (cfgKey sentKey : Option String)
    (data : CallbackData) (st : DBState)
    (h : sentKey = none ∨ sentKey ≠ cfgKey) :
    submission_callback cfgKey sentKey data st = (st, CallbackOutcome.forbidden) ∧
    (submission_callback cfgKey sentKey data st).1.submissions = st.submissions ∧
    (submission_callback cfgKey sentKey data st).1.assignments = st.assignments := by
  have hfalse : get_user_from_header cfgKey sentKey = false := by
    cases sentKey with
    | none => rfl
    | some k =>
      have hg : get_user_from_header cfgKey (some k) =
          (if k = "" then false else some k == cfgKey) := rfl
      rw [hg]
      by_cases hk : k = ""
      · simp [hk]
      · rw [if_neg hk]
        rcases h with h | h
        · exact absurd h (by simp)
        · exact beq_eq_false_iff_ne.mpr h
  have hcall : submission_callback cfgKey sentKey data st =
      (st, CallbackOutcome.forbidden) := by
    unfold submission_callback
    rw [hfalse]
    simp
  exact ⟨hcall, by rw [hcall], by rw [hcall]⟩

theorem C3_bad_secret_no_mutation_witness :
    submission_callback (some "sekrit") (some "wrong") cb70 baseSt =
      (baseSt, CallbackOutcome.forbidden) :=
  (C3_bad_secret_no_mutation (some "sekrit") (some "wrong") cb70 baseSt
    (Or.inr (by decide))).1

/-- C8: an authenticated callback naming a submission id with no matching
row answers the logged-warning not-found branch (HTTP 404) and leaves the
state unchanged. -/
theorem C8_unknown_submission (cfgKey sentKey : Option String)
    (data : CallbackData) (st : DBState)
    (hauth : get_user_from_header cfgKey sentKey = true)
    (hnone : findSubmission st data.submission_id = none) :
    submission_callback cfgKey sentKey data st = (st, CallbackOutcome.submissionMissing) ∧
    (submission_callback cfgKey sentKey data st).2.httpStatus = 404 := by
  have hcall : submission_callback cfgKey sentKey data st =
      (st, CallbackOutcome.submissionMissing) := by
    unfold submission_callback
    rw [hauth]
    simp only [eq_self_iff_true, if_true, hnone]
  exact ⟨hcall, by rw [hcall]; rfl⟩

/-- A callback for a submission id that matches no row of baseSt. -/
def cb404 : CallbackData :=
  { submission_id := 99, status := "Passed", score_achieved := 70, total_score := 100,
    output := "ok" }

theorem C8_unknown_submission_witness :
    submission_callback (some "sekrit") (some "sekrit") cb404 baseSt =
      (baseSt, CallbackOutcome.submissionMissing) :=
  (C8_unknown_submission (some "sekrit") (some "sekrit") cb404 baseSt rfl rfl).1

/-- C9: an authenticated callback for an existing submission whose
(student, problem) pair has no Assignment row still persists the
submission update, leaves the assignments unchanged, and answers the
logged-inconsistency success branch (HTTP 200). -/
theorem C9_no_assignment_still_persists (cfgKey sentKey : Option String)
    (data : CallbackData) (st : DBState) (sub : CodeSubmission)
    (hauth : get_user_from_header cfgKey sentKey = true)
    (hsub : findSubmission st data.submission_id = some sub)
    (hnoa : findAssignment st sub.user_id sub.problem_id = none) :
    (submission_callback cfgKey sentKey data st).2 = CallbackOutcome.successNoAssignment ∧
    (submission_callback cfgKey sentKey data st).2.httpStatus = 200 ∧
    findSubmission (submission_callback cfgKey sentKey data st).1 data.submission_id =
      some (applyCallbackFields data sub) ∧
    (submission_callback cfgKey sentKey data st).1.assignments = st.assignments := by
  have hsub' : st.submissions.find? (fun s => s.id == data.submission_id) = some sub := hsub
  have hcall : submission_callback cfgKey sentKey data st =
      ({ st with submissions := st.submissions.map (fun s =>
          if s.id == data.submission_id then applyCallbackFields data s else s) },
        CallbackOutcome.successNoAssignment) := by
    unfold submission_callback
    rw [hauth]
    simp only [eq_self_iff_true, if_true, hsub, hnoa]
  rw [hcall]
  refine ⟨rfl, rfl, ?_, rfl⟩
  simp only [findSubmission]
  rw [find_update_eq (fun s => s.id == data.submission_id)
    (applyCallbackFields data) (fun s hs => hs), hsub', Option.map_some']

/-- A database holding submission 1 but no assignment row at all. -/
def stNoAsg : DBState :=
  { problems := [prob1], testCases := [], assignments := [], submissions := [sub1] }

theorem C9_no_assignment_still_persists_witness :
    (submission_callback (some "sekrit") (some "sekrit") cb70 stNoAsg).2 =
      CallbackOutcome.successNoAssignment :=
  (C9_no_assignment_still_persists (some "sekrit") (some "sekrit") cb70 stNoAsg sub1
    rfl rfl rfl).1

/-- routes.py lines 109-117, SubmissionForm: the language choices are
hard-coded to python. -/
def languageChoices : List String := ["python"]

/-- wtforms DataRequired on a string field: fails when the data is empty
or whitespace-only. -/
def dataRequiredOk (s : String) : Bool :=
  s.data.any (fun c => !c.isWhitespace)

/-- The fields of a submitted SubmissionForm. -/
structure SubmissionFormData where
  language : String
  code : String
deriving DecidableEq

/-- form.validate_on_submit(): the language must be one of the form's
choices and the code field must satisfy DataRequired. -/
def submissionFormValid (f : SubmissionFormData) : Bool :=
  languageChoices.contains f.language && dataRequiredOk f.code

/-- One element of the payload's test_cases list (routes.py 198-204). -/
structure PayloadTestCase where
  id : Nat
  input : String
  output : String
  is_public : Bool
  score : ℚ
deriving DecidableEq

/-- The job description posted to the executor (routes.py 206-214);
callback_url and api_key are configuration pass-through and omitted. -/
structure LambdaPayload where
  submission_id : Nat
  language : String
  code : String
  test_cases : List PayloadTestCase
  total_score : ℚ
deriving DecidableEq

/-- The observable outcome of the POST branch of view_problem. -/
inductive SubmitOutcome
  | problemGone
  | notAssigned
  | formRejected
  | closed
  | dispatched (payload : LambdaPayload)
  | dispatchFailed (diagnostic : String)
deriving DecidableEq

/-- models.py lines 175-177: problem.public_test_cases. -/
def publicTestCasesOf (st : DBState) (pid : Nat) : List TestCase :=
  (st.testCases.filter (fun tc => tc.problem_id == pid)).filter (fun tc => tc.is_public)

/-- models.py lines 179-181: problem.private_test_cases. -/
def privateTestCasesOf (st : DBState) (pid : Nat) : List TestCase :=
  (st.testCases.filter (fun tc => tc.problem_id == pid)).filter (fun tc => !tc.is_public)

/-- routes.py lines 188-190: the per-private-case share for EQUAL
scoring, problem.total_score / num_private under true division, 0 when
there are no private cases. -/
def equalScorePerCase (problem : CodingProblem) (numPrivate : Nat) : ℚ :=
  if numPrivate > 0 then problem.total_score / (numPrivate : ℚ) else 0

/-- routes.py lines 174-180: the Pending row the POST branch commits. -/
def pendingSubmission (studentId pid newSubId : Nat) (form : SubmissionFormData) :
    CodeSubmission :=
  { id := newSubId, user_id := studentId, problem_id := pid,
    language := form.language, code := form.code, status := "Pending",
    score_achieved := 0, total_score := 0, execution_output := none }

/-- routes.py lines 229-230: the two field writes of the except branch. -/
def applyDispatchError (e : String) (s : CodeSubmission) : CodeSubmission :=
  { s with status := "Error",
           execution_output := some ("Failed to start execution: " ++ e) }

/-- routes.py lines 174-234: the straight-line part of the POST branch
after all guards pass.  A Pending submission with the fresh id newSubId
is committed first; building the payload overwrites the in-session score
of every private test case with the equal share when scoring is EQUAL
(routes.py 193-194); then the Lambda invocation is attempted, with
dispatchError carrying the exception text when boto3 raises.  On success
nothing more is committed, so the in-session test-case mutation is
discarded at request teardown and the committed state keeps the Pending
row; on failure the except branch (routes.py 227-232) sets the
submission to Error with a diagnostic and commits, which also persists
the mutated test-case scores. -/
def buildAndDispatch (st : DBState) (problem : CodingProblem) (studentId pid newSubId : Nat)
    (form : SubmissionFormData) (dispatchError : Option String) : DBState × SubmitOutcome :=
  let sub : CodeSubmission := pendingSubmission studentId pid newSubId form
  let committed : DBState := { st with submissions := st.submissions ++ [sub] }
  let priv := privateTestCasesOf st pid
  let scoredPriv : List TestCase :=
    match problem.scoring_type with
    | .EQUAL => priv.map (fun tc => { tc with score := equalScorePerCase problem priv.length })
    | .CUSTOM => priv
  let total_possible_score : ℚ :=
    match problem.scoring_type with
    | .EQUAL => problem.total_score
    | .CUSTOM => (priv.map (fun tc => tc.score)).sum
  let payload : LambdaPayload :=
    { submission_id := newSubId, language := sub.language, code := sub.code,
      test_cases :=
        (publicTestCasesOf st pid).map (fun tc =>
          { id := tc.id, input := tc.input_data, output := tc.expected_output,
            is_public := true, score := 0 })
        ++ scoredPriv.map (fun tc =>
          { id := tc.id, input := tc.input_data, output := tc.expected_output,
            is_public := false, score := tc.score }),
      total_score := total_possible_score }
  match dispatchError with
  | none => (committed, .dispatched payload)
  | some e =>
    let failed : DBState :=
      { committed with
        testCases :=
          match problem.scoring_type with
          | .EQUAL => committed.testCases.map (fun tc =>
              if tc.problem_id == pid && !tc.is_public then
                { tc with score := equalScorePerCase problem priv.length }
              else tc)
          | .CUSTOM => committed.testCases,
        submissions := committed.submissions.map (fun s =>
          if s.id == newSubId then applyDispatchError e s else s) }
    (failed, .dispatchFailed ("Failed to start execution: " ++ e))

/-- routes.py lines 156-234, the POST handler of view_problem: 404 on a
missing problem, redirect when the student is not assigned, re-render on
an invalid form, redirect when the problem is closed, and otherwise the
commit / payload / dispatch sequence of buildAndDispatch. -/
def view_problem_post (st : DBState) (studentId : Nat) (pid : Nat)
    (form : SubmissionFormData) (newSubId : Nat) (dispatchError : Option String) :
    DBState × SubmitOutcome :=
  match findProblem st pid with
  | none => (st, .problemGone)
  | some problem =>
    match findAssignment st studentId pid with
    | none => (st, .notAssigned)
    | some _ =>
      if submissionFormValid form then
        if problem.is_open then
          buildAndDispatch st problem studentId pid newSubId form dispatchError
        else (st, .closed)
      else (st, .formRejected)

theorem view_problem_post_guards_pass (st : DBState) (studentId pid newSubId : Nat)
    (form : SubmissionFormData) (dErr : Option String)
    (problem : CodingProblem) (asg : ProblemAssignment)
    (hp : findProblem st pid = some problem)
    (ha : findAssignment st studentId pid = some asg)
    (hform : submissionFormValid form = true)
    (hopen : problem.is_open = true) :
    view_problem_post st studentId pid form newSubId dErr =
      buildAndDispatch st problem studentId pid newSubId form dErr := by
  unfold view_problem_post
  simp only [hp, ha, hform, hopen, if_true]

theorem filter_none_of_false {α : Type} (p : α → Bool) (l : List α)
    (h : ∀ a ∈ l, p a = false) : l.filter p = [] := by
  induction l with
  | nil => rfl
  | cons x xs ih =>
    have hx : p x = false := h x (List.mem_cons_self x xs)
    rw [List.filter_cons, if_neg (by simp [hx])]
    exact ih fun a ha => h a (List.mem_cons_of_mem _ ha)

/-- C4 (amended): when dispatch to the executor fails, the final state
holds exactly one Submission row with the fresh id, in Error status
(never Pending) with a non-empty diagnostic; problems and assignments are
untouched; for CUSTOM scoring the test cases are untouched too, but for
EQUAL scoring the private test cases' score fields are overwritten with
the equal share computed while building the payload and committed
together with the failure. -/
theorem C4_dispatch_failure_state (st : DBState) (studentId pid newSubId : Nat)
    (form : SubmissionFormData) (e : String)
    (problem : CodingProblem) (asg : ProblemAssignment)
    (hp : findProblem st pid = some problem)
    (ha : findAssignment st studentId pid = some asg)
    (hform : submissionFormValid form = true)
    (hopen : problem.is_open = true)
    (hfresh : ∀ s ∈ st.submissions, (s.id == newSubId) = false) :
    (view_problem_post st studentId pid form newSubId (some e)).1.submissions =
      st.submissions ++
        [applyDispatchError e (pendingSubmission studentId pid newSubId form)] ∧
    ((view_problem_post st studentId pid form newSubId (some e)).1.submissions.filter
        (fun s => s.id == newSubId)).length = 1 ∧
    (applyDispatchError e (pendingSubmission studentId pid newSubId form)).status =
      "Error" ∧
    (applyDispatchError e (pendingSubmission studentId pid newSubId form)).status ≠
      "Pending" ∧
    (applyDispatchError e (pendingSubmission studentId pid newSubId form)).execution_output =
      some ("Failed to start execution: " ++ e) ∧
    "Failed to start execution: " ++ e ≠ "" ∧
    (view_problem_post st studentId pid form newSubId (some e)).1.problems = st.problems ∧
    (view_problem_post st studentId pid form newSubId (some e)).1.assignments =
      st.assignments ∧
    (problem.scoring_type = ScoringType.CUSTOM →
      (view_problem_post st studentId pid form newSubId (some e)).1.testCases =
        st.testCases) ∧
    (problem.scoring_type = ScoringType.EQUAL →
      (view_problem_post st studentId pid form newSubId (some e)).1.testCases =
        st.testCases.map (fun tc =>
          if tc.problem_id == pid && !tc.is_public then
            { tc with score := equalScorePerCase problem (privateTestCasesOf st pid).length }
          else tc)) ∧
    (view_problem_post st studentId pid form newSubId (some e)).2 =
      SubmitOutcome.dispatchFailed ("Failed to start execution: " ++ e) := by
  rw [view_problem_post_guards_pass st studentId pid newSubId form (some e) problem asg
    hp ha hform hopen]
  have hsubs : (st.submissions ++ [pendingSubmission studentId pid newSubId form]).map
      (fun s => if s.id == newSubId then applyDispatchError e s else s) =
      st.submissions ++
        [applyDispatchError e (pendingSubmission studentId pid newSubId form)] := by
    rw [List.map_append, map_update_of_none _ _ _ hfresh]
    simp [pendingSubmission]
  have hfilt : ((st.submissions ++
      [applyDispatchError e (pendingSubmission studentId pid newSubId form)]).filter
      (fun s => s.id == newSubId)).length = 1 := by
    rw [List.filter_append, filter_none_of_false _ _ hfresh]
    simp [applyDispatchError, pendingSubmission]
  have hne : "Failed to start execution: " ++ e ≠ "" := by
    intro hstr
    have hlen := congrArg String.length hstr
    rw [String.length_append] at hlen
    have h27 : "Failed to start execution: ".length = 27 := rfl
    have h0 : "".length = 0 := rfl
    rw [h27, h0] at hlen
    omega
  cases hsc : problem.scoring_type with
  | EQUAL =>
    have hb : buildAndDispatch st problem studentId pid newSubId form (some e) =
        ({ st with
            testCases := st.testCases.map (fun tc =>
              if tc.problem_id == pid && !tc.is_public then
                { tc with
                    score := equalScorePerCase problem (privateTestCasesOf st pid).length }
              else tc),
            submissions := (st.submissions ++
              [pendingSubmission studentId pid newSubId form]).map
              (fun s => if s.id == newSubId then applyDispatchError e s else s) },
          SubmitOutcome.dispatchFailed ("Failed to start execution: " ++ e)) := by
      unfold buildAndDispatch
      simp only [hsc]
    rw [hb]
    have h2 : ((List.filter (fun s => s.id == newSubId)
        ((st.submissions ++ [pendingSubmission studentId pid newSubId form]).map
          (fun s => if s.id == newSubId then applyDispatchError e s else s)))).length = 1 := by
      rw [hsubs]
      exact hfilt
    exact ⟨hsubs, h2, rfl, by simp [applyDispatchError], rfl, hne, rfl, rfl,
      fun hc => absurd hc (by decide), fun _ => rfl, rfl⟩
  | CUSTOM =>
    have hb : buildAndDispatch st problem studentId pid newSubId form (some e) =
        ({ st with
            submissions := (st.submissions ++
              [pendingSubmission studentId pid newSubId form]).map
              (fun s => if s.id == newSubId then applyDispatchError e s else s) },
          SubmitOutcome.dispatchFailed ("Failed to start execution: " ++ e)) := by
      unfold buildAndDispatch
      simp only [hsc]
    rw [hb]
    have h2 : ((List.filter (fun s => s.id == newSubId)
        ((st.submissions ++ [pendingSubmission studentId pid newSubId form]).map
          (fun s => if s.id == newSubId then applyDispatchError e s else s)))).length = 1 := by
      rw [hsubs]
      exact hfilt
    exact ⟨hsubs, h2, rfl, by simp [applyDispatchError], rfl, hne, rfl, rfl,
      fun _ => rfl, fun hc => absurd hc (by decide), rfl⟩

/-- A valid submission form: python, non-blank code. -/
def formPy : SubmissionFormData := { language := "python", code := "print(1)" }

/-- C4 as stated is false: for the EQUAL-scoring problem of baseSt, a
dispatch failure commits the payload-building mutation of the private
test case's score field (0 becomes 100/1), so the parent problem's
test-case records do not stay unchanged. -/
theorem C4_counterexample :
    (view_problem_post baseSt 1 1 formPy 2 (some "boom")).2 =
      SubmitOutcome.dispatchFailed "Failed to start execution: boom" ∧
    (view_problem_post baseSt 1 1 formPy 2 (some "boom")).1.testCases ≠
      baseSt.testCases := by
  constructor
  · rfl
  · intro hEq
    have h1 : (view_problem_post baseSt 1 1 formPy 2 (some "boom")).1.testCases =
        [{ id := 1, problem_id := 1, is_public := true, input_data := "1",
           expected_output := "1", score := 0 },
         { id := 2, problem_id := 1, is_public := false, input_data := "2",
           expected_output := "4", score := equalScorePerCase prob1 1 }] := rfl
    have h0 : baseSt.testCases =
        [{ id := 1, problem_id := 1, is_public := true, input_data := "1",
           expected_output := "1", score := 0 },
         { id := 2, problem_id := 1, is_public := false, input_data := "2",
           expected_output := "4", score := 0 }] := rfl
    rw [h1, h0] at hEq
    have htail := (List.cons_eq_cons.mp hEq).2
    have hsecond := (List.cons_eq_cons.mp htail).1
    have hscore : equalScorePerCase prob1 1 = 0 := congrArg TestCase.score hsecond
    norm_num [equalScorePerCase, prob1] at hscore

theorem C4_dispatch_failure_state_witness :
    (view_problem_post baseSt 1 1 formPy 2 (some "boom")).1.assignments =
      baseSt.assignments :=
  (C4_dispatch_failure_state baseSt 1 1 2 formPy "boom" prob1 asg40
    rfl rfl rfl rfl (by decide)).2.2.2.2.2.2.2.1

/-- C5: submission creation rejects without persisting any Submission row
when the problem is not assigned to the requesting student, or the
problem is closed, or the requested language is outside the form's
choices; the outcome names the authorization error when the assignment
is missing, the validation error when the language is disallowed, and
the closed error when only the openness check fails. -/
theorem C5_creation_rejections (st : DBState) (studentId pid newSubId : Nat)
    (form : SubmissionFormData) (dErr : Option String) (problem : CodingProblem)
    (hp : findProblem st pid = some problem)
    (hfail : findAssignment st studentId pid = none ∨ problem.is_open = false ∨
      languageChoices.contains form.language = false) :
    (view_problem_post st studentId pid form newSubId dErr).1 = st ∧
    ((view_problem_post st studentId pid form newSubId dErr).2 =
        SubmitOutcome.notAssigned ∨
     (view_problem_post st studentId pid form newSubId dErr).2 =
        SubmitOutcome.formRejected ∨
     (view_problem_post st studentId pid form newSubId dErr).2 = SubmitOutcome.closed) ∧
    (findAssignment st studentId pid = none →
      (view_problem_post st studentId pid form newSubId dErr).2 =
        SubmitOutcome.notAssigned) ∧
    (findAssignment st studentId pid ≠ none →
      languageChoices.contains form.language = false →
      (view_problem_post st studentId pid form newSubId dErr).2 =
        SubmitOutcome.formRejected) ∧
    (findAssignment st studentId pid ≠ none → submissionFormValid form = true →
      problem.is_open = false →
      (view_problem_post st studentId pid form newSubId dErr).2 =
        SubmitOutcome.closed) := by
  cases hasg : findAssignment st studentId pid with
  | none =>
    have hcall : view_problem_post st studentId pid form newSubId dErr =
        (st, SubmitOutcome.notAssigned) := by
      unfold view_problem_post
      simp only [hp, hasg]
    rw [hcall]
    exact ⟨rfl, Or.inl rfl, fun _ => rfl,
      fun hne _ => absurd rfl hne, fun hne _ _ => absurd rfl hne⟩
  | some asg =>
    by_cases hfv : submissionFormValid form = true
    · have hboth : languageChoices.contains form.language = true ∧
          dataRequiredOk form.code = true := by
        simpa [submissionFormValid] using hfv
      have hlang : languageChoices.contains form.language = true := hboth.1
      have hopen : problem.is_open = false := by
        rcases hfail with h | h | h
        · rw [hasg] at h
          cases h
        · exact h
        · rw [h] at hlang
          cases hlang
      have hcall : view_problem_post st studentId pid form newSubId dErr =
          (st, SubmitOutcome.closed) := by
        unfold view_problem_post
        simp only [hp, hasg, hfv, if_true, hopen, Bool.false_eq_true, if_false]
      rw [hcall]
      refine ⟨rfl, Or.inr (Or.inr rfl), ?_, ?_, fun _ _ _ => rfl⟩
      · intro h
        cases h
      · intro _ hcont
        rw [hcont] at hlang
        cases hlang
    · have hfv2 : submissionFormValid form = false := by
        simpa using hfv
      have hcall : view_problem_post st studentId pid form newSubId dErr =
          (st, SubmitOutcome.formRejected) := by
        unfold view_problem_post
        simp only [hp, hasg, hfv2, Bool.false_eq_true, if_false]
      rw [hcall]
      refine ⟨rfl, Or.inr (Or.inl rfl), ?_, fun _ _ => rfl, ?_⟩
      · intro h
        cases h
      · intro _ hv _
        rw [hfv2] at hv
        cases hv

theorem C5_creation_rejections_witness :
    (view_problem_post baseSt 7 1 formPy 5 none).1 = baseSt :=
  (C5_creation_rejections baseSt 7 1 5 formPy none prob1 rfl (Or.inl rfl)).1

theorem filter_map_of_false {α β : Type} (f : α → β) (p : β → Bool) (l : List α)
    (h : ∀ a, p (f a) = false) : (l.map f).filter p = [] := by
  induction l with
  | nil => rfl
  | cons x xs ih =>
    rw [List.map_cons, List.filter_cons, if_neg (by simp [h x]), ih]

theorem filter_map_of_true {α β : Type} (f : α → β) (p : β → Bool) (l : List α)
    (h : ∀ a, p (f a) = true) : (l.map f).filter p = l.map f := by
  induction l with
  | nil => rfl
  | cons x xs ih =>
    rw [List.map_cons, List.filter_cons, if_pos (h x), ih]

/-- C10: in every dispatched grading payload, public test cases are
tagged with score 0; for EQUAL scoring every private entry carries the
equal share total_score / n (0 when n = 0) and the payload total is the
problem's total_score; for CUSTOM scoring the private entries keep their
stored scores and the payload total is their sum. -/
theorem C10_payload_scores (st : DBState) (studentId pid newSubId : Nat)
    (form : SubmissionFormData) (problem : CodingProblem) (asg : ProblemAssignment)
    (p : LambdaPayload)
    (hp : findProblem st pid = some problem)
    (ha : findAssignment st studentId pid = some asg)
    (hform : submissionFormValid form = true)
    (hopen : problem.is_open = true)
    (hdisp : (view_problem_post st studentId pid form newSubId none).2 =
      SubmitOutcome.dispatched p) :
    (∀ e ∈ p.test_cases, e.is_public = true → e.score = 0) ∧
    (problem.scoring_type = ScoringType.EQUAL →
      p.total_score = problem.total_score ∧
      ∀ e ∈ p.test_cases, e.is_public = false →
        e.score = equalScorePerCase problem (privateTestCasesOf st pid).length) ∧
    (problem.scoring_type = ScoringType.CUSTOM →
      p.total_score = ((privateTestCasesOf st pid).map (fun tc => tc.score)).sum ∧
      p.test_cases.filter (fun e => !e.is_public) =
        (privateTestCasesOf st pid).map (fun tc =>
          { id := tc.id, input := tc.input_data, output := tc.expected_output,
            is_public := false, score := tc.score })) := by
  rw [view_problem_post_guards_pass st studentId pid newSubId form none problem asg
    hp ha hform hopen] at hdisp
  cases hsc : problem.scoring_type with
  | EQUAL =>
    have hout : (buildAndDispatch st problem studentId pid newSubId form none).2 =
        SubmitOutcome.dispatched
          { submission_id := newSubId, language := form.language, code := form.code,
            test_cases :=
              (publicTestCasesOf st pid).map (fun tc =>
                { id := tc.id, input := tc.input_data, output := tc.expected_output,
                  is_public := true, score := 0 })
              ++ ((privateTestCasesOf st pid).map (fun tc =>
                { tc with
                    score := equalScorePerCase problem
                      (privateTestCasesOf st pid).length })).map (fun tc =>
                { id := tc.id, input := tc.input_data, output := tc.expected_output,
                  is_public := false, score := tc.score }),
            total_score := problem.total_score } := by
      unfold buildAndDispatch
      simp only [hsc]
      rfl
    rw [hout] at hdisp
    have hpEq : p =
        { submission_id := newSubId, language := form.language, code := form.code,
          test_cases :=
            (publicTestCasesOf st pid).map (fun tc =>
              { id := tc.id, input := tc.input_data, output := tc.expected_output,
                is_public := true, score := 0 })
            ++ ((privateTestCasesOf st pid).map (fun tc =>
              { tc with
                  score := equalScorePerCase problem
                    (privateTestCasesOf st pid).length })).map (fun tc =>
              { id := tc.id, input := tc.input_data, output := tc.expected_output,
                is_public := false, score := tc.score }),
          total_score := problem.total_score } := by
      injection hdisp with h
      exact h.symm
    subst hpEq
    refine ⟨?_, fun _ => ⟨rfl, ?_⟩, fun hc => absurd hc (by decide)⟩
    · intro e he hpub
      rcases List.mem_append.mp he with h | h
      · rcases List.mem_map.mp h with ⟨tc, _, rfl⟩
        rfl
      · rcases List.mem_map.mp h with ⟨tc, _, rfl⟩
        cases hpub
    · intro e he hpriv
      rcases List.mem_append.mp he with h | h
      · rcases List.mem_map.mp h with ⟨tc, _, rfl⟩
        cases hpriv
      · rcases List.mem_map.mp h with ⟨tc, htc, rfl⟩
        rcases List.mem_map.mp htc with ⟨tc0, _, rfl⟩
        rfl
  | CUSTOM =>
    have hout : (buildAndDispatch st problem studentId pid newSubId form none).2 =
        SubmitOutcome.dispatched
          { submission_id := newSubId, language := form.language, code := form.code,
            test_cases :=
              (publicTestCasesOf st pid).map (fun tc =>
                { id := tc.id, input := tc.input_data, output := tc.expected_output,
                  is_public := true, score := 0 })
              ++ (privateTestCasesOf st pid).map (fun tc =>
                { id := tc.id, input := tc.input_data, output := tc.expected_output,
                  is_public := false, score := tc.score }),
            total_score := ((privateTestCasesOf st pid).map (fun tc => tc.score)).sum } := by
      unfold buildAndDispatch
      simp only [hsc]
      rfl
    rw [hout] at hdisp
    have hpEq : p =
        { submission_id := newSubId, language := form.language, code := form.code,
          test_cases :=
            (publicTestCasesOf st pid).map (fun tc =>
              { id := tc.id, input := tc.input_data, output := tc.expected_output,
                is_public := true, score := 0 })
            ++ (privateTestCasesOf st pid).map (fun tc =>
              { id := tc.id, input := tc.input_data, output := tc.expected_output,
                is_public := false, score := tc.score }),
          total_score := ((privateTestCasesOf st pid).map (fun tc => tc.score)).sum } := by
      injection hdisp with h
      exact h.symm
    subst hpEq
    refine ⟨?_, fun hc => absurd hc (by decide), fun _ => ⟨rfl, ?_⟩⟩
    · intro e he hpub
      rcases List.mem_append.mp he with h | h
      · rcases List.mem_map.mp h with ⟨tc, _, rfl⟩
        rfl
      · rcases List.mem_map.mp h with ⟨tc, _, rfl⟩
        cases hpub
    · rw [List.filter_append,
        filter_map_of_false _ _ _ (fun tc => rfl),
        filter_map_of_true _ _ _ (fun tc => rfl),
        List.nil_append]

/-- An open problem with CUSTOM per-case scoring, created by instructor 2. -/
def prob2 : CodingProblem :=
  { id := 2, creator_id := 2, is_open := true, total_score := 100,
    scoring_type := ScoringType.CUSTOM }

/-- Student 1 assigned problem 2, best score still 0. -/
def asgC : ProblemAssignment :=
  { user_id := 1, problem_id := 2, best_score := 0, best_submission_id := none }

/-- A database with a CUSTOM-scored problem: one public case and two
private cases worth 30 and 70. -/
def stCustom : DBState :=
  { problems := [prob2],
    testCases := [{ id := 5, problem_id := 2, is_public := true, input_data := "a",
                    expected_output := "b", score := 0 },
                  { id := 6, problem_id := 2, is_public := false, input_data := "c",
                    expected_output := "d", score := 30 },
                  { id := 7, problem_id := 2, is_public := false, input_data := "e",
                    expected_output := "f", score := 70 }],
    assignments := [asgC],
    submissions := [] }

/-- The payload the route builds for stCustom (total left as the sum the
code computes). -/
def pCustom : LambdaPayload :=
  { submission_id := 1, language := "python", code := "print(1)",
    test_cases := [{ id := 5, input := "a", output := "b", is_public := true, score := 0 },
                   { id := 6, input := "c", output := "d", is_public := false, score := 30 },
                   { id := 7, input := "e", output := "f", is_public := false, score := 70 }],
    total_score := ((privateTestCasesOf stCustom 2).map (fun tc => tc.score)).sum }

theorem C10_payload_scores_witness :
    pCustom.total_score = ((privateTestCasesOf stCustom 2).map (fun tc => tc.score)).sum :=
  ((C10_payload_scores stCustom 1 2 1 formPy prob2 asgC pCustom
    rfl rfl rfl rfl rfl).2.2 rfl).1

/-- A Python value as read off an ORM attribute. -/
inductive PyVal
  | num (q : ℚ)
  | str (s : String)
  | pyNone
deriving DecidableEq

/-- Attribute lookup on a CodeSubmission ORM object: exactly the columns
declared on the model (models.py lines 228-250) exist; any other name
raises AttributeError, modelled as none. -/
def submissionGetAttr (s : CodeSubmission) : String → Option PyVal
  | "id" => some (.num s.id)
  | "user_id" => some (.num s.user_id)
  | "problem_id" => some (.num s.problem_id)
  | "language" => some (.str s.language)
  | "code" => some (.str s.code)
  | "status" => some (.str s.status)
  | "score_achieved" => some (.num s.score_achieved)
  | "total_score" => some (.num s.total_score)
  | "execution_output" =>
      some (match s.execution_output with | some o => .str o | none => .pyNone)
  | _ => none

/-- The JSON body the polling endpoint tries to build. -/
structure StatusJson where
  status : PyVal
  output : PyVal
  score : PyVal
deriving DecidableEq

inductive Role
  | student
  | instructor
deriving DecidableEq

/-- The authenticated caller of the polling endpoint. -/
structure Caller where
  id : Nat
  role : Role
deriving DecidableEq

/-- The observable outcome of the polling endpoint: the JSON body on
success, 404 on an unknown id, 403 on the ownership checks, 500 when an
uncaught exception (such as an AttributeError) escapes the handler. -/
inductive PollResult
  | json (j : StatusJson)
  | missing
  | forbidden
  | serverError
deriving DecidableEq

/-- routes.py lines 558-562: the jsonify body reads submission.status,
submission.execution_output and the misspelt attribute name
score_a_chieved (the model declares score_achieved); the AttributeError
escapes as a 500. -/
def pollBody (sub : CodeSubmission) : PollResult :=
  match submissionGetAttr sub "status", submissionGetAttr sub "execution_output",
      submissionGetAttr sub "score_a_chieved" with
  | some a, some b, some c => PollResult.json { status := a, output := b, score := c }
  | _, _, _ => PollResult.serverError

/-- routes.py lines 544-562, get_submission_status: 404 when the id has
no row; 403 when a student caller does not own the submission or an
instructor caller did not create the parent problem; otherwise the
jsonify body of pollBody. -/
def get_submission_status (st : DBState) (caller : Caller) (sid : Nat) : PollResult :=
  match findSubmission st sid with
  | none => .missing
  | some sub =>
    if caller.role = Role.student ∧ sub.user_id ≠ caller.id then .forbidden
    else if caller.role = Role.instructor then
      match findProblem st sub.problem_id with
      | none => .serverError
      | some pb => if pb.creator_id ≠ caller.id then .forbidden else pollBody sub
    else pollBody sub

/-- A submission that already reached the terminal status Passed. -/
def subPassed : CodeSubmission :=
  { id := 1, user_id := 1, problem_id := 1, language := "python",
    code := "print(1)", status := "Passed", score_achieved := 100,
    total_score := 100, execution_output := some "all passed" }

/-- A database state in which submission 1 has already passed with 100
and the assignment caches that best score. -/
def stPolled : DBState :=
  { problems := [prob1],
    testCases := [],
    assignments := [{ user_id := 1, problem_id := 1, best_score := 100,
                      best_submission_id := some 1 }],
    submissions := [subPassed] }

/-- C2 fails on the code: polling submission 1 of stPolled as its owning
student does not return the status / output / score JSON, because the
handler reads the misspelt attribute score_a_chieved and the
AttributeError escapes as a 500; the ownership rejection for any other
requester does hold, shown here for a stranger student. -/
theorem C2_polling_typo_crashes :
    get_submission_status stPolled { id := 1, role := Role.student } 1 =
      PollResult.serverError ∧
    get_submission_status stPolled { id := 9, role := Role.student } 1 =
      PollResult.forbidden := by
  constructor
  · rfl
  · rfl

/-- A second callback delivery for submission 1, reporting Failed with
score 0. -/
def cbFail : CallbackData :=
  { submission_id := 1, status := "Failed", score_achieved := 0, total_score := 100,
    output := "second delivery" }

/-- The list of terminal submission statuses. -/
def terminalStatuses : List String := ["Passed", "Failed", "Error"]

/-- C6's no-overwrite part is false on the code: submission 1 of stPolled
is already in the terminal status Passed, yet a second authenticated
callback reporting Failed overwrites its status, score and output. -/
theorem C6_counterexample :
    (findSubmission stPolled 1).map (fun s => s.status) = some "Passed" ∧
    "Passed" ∈ terminalStatuses ∧
    (findSubmission (submission_callback (some "sekrit") (some "sekrit") cbFail
        stPolled).1 1).map
      (fun s => (s.status, s.score_achieved, s.execution_output)) =
      some ("Failed", 0, some "second delivery") := by
  exact ⟨rfl, by decide, rfl⟩

theorem buildAndDispatch_none_submissions (st : DBState) (problem : CodingProblem)
    (studentId pid newSubId : Nat) (form : SubmissionFormData) :
    (buildAndDispatch st problem studentId pid newSubId form none).1.submissions =
      st.submissions ++ [pendingSubmission studentId pid newSubId form] := rfl

theorem callback_writes_fields (cfgKey sentKey : Option String) (data : CallbackData)
    (st : DBState) (sub : CodeSubmission)
    (hauth : get_user_from_header cfgKey sentKey = true)
    (hsub : findSubmission st data.submission_id = some sub) :
    findSubmission (submission_callback cfgKey sentKey data st).1 data.submission_id =
      some (applyCallbackFields data sub) := by
  have hsub' : st.submissions.find? (fun s => s.id == data.submission_id) = some sub := hsub
  cases hasg : findAssignment st sub.user_id sub.problem_id with
  | none =>
    have hcall : submission_callback cfgKey sentKey data st =
        ({ st with submissions := st.submissions.map (fun s =>
            if s.id == data.submission_id then applyCallbackFields data s else s) },
          CallbackOutcome.successNoAssignment) := by
      unfold submission_callback
      rw [hauth]
      simp only [eq_self_iff_true, if_true, hsub, hasg]
    rw [hcall]
    simp only [findSubmission]
    rw [find_update_eq (fun s => s.id == data.submission_id)
      (applyCallbackFields data) (fun s hs => hs), hsub', Option.map_some']
  | some a =>
    by_cases hgt : data.score_achieved > a.best_score
    · have hcall : submission_callback cfgKey sentKey data st =
          ({ st with
              submissions := st.submissions.map (fun s =>
                if s.id == data.submission_id then applyCallbackFields data s else s),
              assignments := st.assignments.map (fun x =>
                if x.user_id == sub.user_id && x.problem_id == sub.problem_id then
                  applyBestUpdate data sub.id x
                else x) }, CallbackOutcome.success) := by
        unfold submission_callback
        rw [hauth]
        simp only [eq_self_iff_true, if_true, hsub, hasg, if_pos hgt]
      rw [hcall]
      simp only [findSubmission]
      rw [find_update_eq (fun s => s.id == data.submission_id)
        (applyCallbackFields data) (fun s hs => hs), hsub', Option.map_some']
    · have hcall : submission_callback cfgKey sentKey data st =
          ({ st with submissions := st.submissions.map (fun s =>
              if s.id == data.submission_id then applyCallbackFields data s else s) },
            CallbackOutcome.success) := by
        unfold submission_callback
        rw [hauth]
        simp only [eq_self_iff_true, if_true, hsub, hasg, if_neg hgt]
      rw [hcall]
      simp only [findSubmission]
      rw [find_update_eq (fun s => s.id == data.submission_id)
        (applyCallbackFields data) (fun s hs => hs), hsub', Option.map_some']

/-- C6 (amended): a successfully dispatched submission is created in
Pending status and callbacks (or dispatch failure) write terminal
statuses, but the callback handler has no terminal-state guard: an
authenticated callback for a submission already in a terminal status
still overwrites its status, score and output with the reported
values. -/
theorem C6_lifecycle_no_terminal_guard :
    (∀ (st : DBState) (studentId pid newSubId : Nat) (form : SubmissionFormData)
      (problem : CodingProblem) (asg : ProblemAssignment),
      findProblem st pid = some problem →
      findAssignment st studentId pid = some asg →
      submissionFormValid form = true →
      problem.is_open = true →
      (∀ s ∈ st.submissions, (s.id == newSubId) = false) →
      ∀ s ∈ (view_problem_post st studentId pid form newSubId none).1.submissions,
        s.id = newSubId → s.status = "Pending") ∧
    (∀ (cfgKey sentKey : Option String) (data : CallbackData) (st : DBState)
      (sub : CodeSubmission),
      get_user_from_header cfgKey sentKey = true →
      findSubmission st data.submission_id = some sub →
      sub.status ∈ terminalStatuses →
      findSubmission (submission_callback cfgKey sentKey data st).1 data.submission_id =
        some (applyCallbackFields data sub)) := by
  constructor
  · intro st studentId pid newSubId form problem asg hp ha hform hopen hfresh s hs hid
    rw [view_problem_post_guards_pass st studentId pid newSubId form none problem asg
      hp ha hform hopen, buildAndDispatch_none_submissions] at hs
    rcases List.mem_append.mp hs with h | h
    · have htrue : (s.id == newSubId) = true := by simp [hid]
      rw [hfresh s h] at htrue
      cases htrue
    · rw [List.mem_singleton] at h
      subst h
      rfl
  · intro cfgKey sentKey data st sub hauth hsub _
    exact callback_writes_fields cfgKey sentKey data st sub hauth hsub

theorem C6_lifecycle_no_terminal_guard_witness :
    findSubmission (submission_callback (some "sekrit") (some "sekrit") cbFail
        stPolled).1 1 =
      some (applyCallbackFields cbFail subPassed) :=
  C6_lifecycle_no_terminal_guard.2 (some "sekrit") (some "sekrit") cbFail stPolled
    subPassed rfl rfl (by decide)

/-- The maximum score_achieved across a (student, problem) pair's
submissions, 0 when there are none (the best_score default). -/
def maxScoreAchieved (st : DBState) (uid pid : Nat) : ℚ :=
  ((st.submissions.filter (fun s => s.user_id == uid && s.problem_id == pid)).map
    (fun s => s.score_achieved)).foldr max 0

/-- C7's best-score-equals-maximum part is false on the code: stPolled
satisfies it (best 100, single submission with score 100), but a second
callback lowering the submission's stored score to 0 leaves best_score
at 100 while the maximum score_achieved over the pair's submissions
drops to 0. -/
theorem C7_counterexample :
    maxScoreAchieved stPolled 1 1 = 100 ∧
    (findAssignment stPolled 1 1).map (fun a => a.best_score) = some 100 ∧
    (findAssignment (submission_callback (some "sekrit") (some "sekrit") cbFail
        stPolled).1 1 1).map (fun a => a.best_score) = some 100 ∧
    maxScoreAchieved
      (submission_callback (some "sekrit") (some "sekrit") cbFail stPolled).1 1 1 = 0 ∧
    (100 : ℚ) ≠ 0 := by
  refine ⟨by decide, rfl, rfl, by decide, by norm_num⟩

/-- The uniqueness invariant of the problem_assignments composite primary
key: at most one row per (user_id, problem_id) pair. -/
def uniqueAssignmentPairs (st : DBState) : Prop :=
  st.assignments.Pairwise (fun a b => a.user_id ≠ b.user_id ∨ a.problem_id ≠ b.problem_id)

theorem pairwise_keys_map (l : List ProblemAssignment)
    (g : ProblemAssignment → ProblemAssignment)
    (hg : ∀ x, (g x).user_id = x.user_id ∧ (g x).problem_id = x.problem_id)
    (h : l.Pairwise (fun a b => a.user_id ≠ b.user_id ∨ a.problem_id ≠ b.problem_id)) :
    (l.map g).Pairwise (fun a b => a.user_id ≠ b.user_id ∨ a.problem_id ≠ b.problem_id) := by
  rw [List.pairwise_map]
  refine h.imp ?_
  intro a b hab
  rcases hab with h1 | h1
  · exact Or.inl (by rw [(hg a).1, (hg b).1]; exact h1)
  · exact Or.inr (by rw [(hg a).2, (hg b).2]; exact h1)

theorem mem_eq_of_unique_keys {l : List ProblemAssignment}
    (h : l.Pairwise (fun a b => a.user_id ≠ b.user_id ∨ a.problem_id ≠ b.problem_id))
    {a b : ProblemAssignment} (ha : a ∈ l) (hb : b ∈ l)
    (hu : a.user_id = b.user_id) (hpid : a.problem_id = b.problem_id) : a = b := by
  induction l with
  | nil => cases ha
  | cons x xs ih =>
    rcases List.pairwise_cons.mp h with ⟨hx, hxs⟩
    rcases List.mem_cons.mp ha with rfl | ha'
    · rcases List.mem_cons.mp hb with rfl | hb'
      · rfl
      · rcases hx b hb' with hne | hne
        · exact absurd hu hne
        · exact absurd hpid hne
    · rcases List.mem_cons.mp hb with rfl | hb'
      · rcases hx a ha' with hne | hne
        · exact absurd hu.symm hne
        · exact absurd hpid.symm hne
      · exact ih hxs ha' hb'

/-- C7 (amended): both operations preserve at most one Assignment row
per (student, problem) pair; the callback never decreases any
assignment's best_score (given the uniqueness invariant) and submission
creation leaves the assignments untouched; best_score however tracks the
maximum score ever reported by a callback, not necessarily the maximum
current score_achieved across the pair's submissions. -/
theorem C7_assignment_invariants :
    (∀ (cfgKey sentKey : Option String) (data : CallbackData) (st : DBState),
      uniqueAssignmentPairs st →
      uniqueAssignmentPairs (submission_callback cfgKey sentKey data st).1 ∧
      ∀ a ∈ st.assignments,
        ∃ b ∈ (submission_callback cfgKey sentKey data st).1.assignments,
          b.user_id = a.user_id ∧ b.problem_id = a.problem_id ∧
          a.best_score ≤ b.best_score) ∧
    (∀ (st : DBState) (studentId pid newSubId : Nat) (form : SubmissionFormData)
      (dErr : Option String),
      (view_problem_post st studentId pid form newSubId dErr).1.assignments =
        st.assignments) := by
  constructor
  · intro cfgKey sentKey data st hU
    by_cases hauth : get_user_from_header cfgKey sentKey = true
    · cases hsub : findSubmission st data.submission_id with
      | none =>
        have hcall : submission_callback cfgKey sentKey data st =
            (st, CallbackOutcome.submissionMissing) := by
          unfold submission_callback
          rw [hauth]
          simp only [eq_self_iff_true, if_true, hsub]
        rw [hcall]
        exact ⟨hU, fun a ha => ⟨a, ha, rfl, rfl, le_refl _⟩⟩
      | some sub =>
        cases hasg : findAssignment st sub.user_id sub.problem_id with
        | none =>
          have hcall : submission_callback cfgKey sentKey data st =
              ({ st with submissions := st.submissions.map (fun s =>
                  if s.id == data.submission_id then applyCallbackFields data s else s) },
                CallbackOutcome.successNoAssignment) := by
            unfold submission_callback
            rw [hauth]
            simp only [eq_self_iff_true, if_true, hsub, hasg]
          rw [hcall]
          exact ⟨hU, fun a ha => ⟨a, ha, rfl, rfl, le_refl _⟩⟩
        | some afound =>
          by_cases hgt : data.score_achieved > afound.best_score
          · have hcall : submission_callback cfgKey sentKey data st =
                ({ st with
                    submissions := st.submissions.map (fun s =>
                      if s.id == data.submission_id then applyCallbackFields data s
                      else s),
                    assignments := st.assignments.map (fun x =>
                      if x.user_id == sub.user_id && x.problem_id == sub.problem_id then
                        applyBestUpdate data sub.id x
                      else x) }, CallbackOutcome.success) := by
              unfold submission_callback
              rw [hauth]
              simp only [eq_self_iff_true, if_true, hsub, hasg, if_pos hgt]
            rw [hcall]
            constructor
            · refine pairwise_keys_map st.assignments _ ?_ hU
              intro x
              by_cases hc : (x.user_id == sub.user_id && x.problem_id == sub.problem_id) =
                  true
              · simp [hc, applyBestUpdate]
              · simp [hc]
            · intro a ha
              refine ⟨(fun x =>
                  if x.user_id == sub.user_id && x.problem_id == sub.problem_id then
                    applyBestUpdate data sub.id x
                  else x) a, List.mem_map_of_mem _ ha, ?_⟩
              by_cases hc : (a.user_id == sub.user_id && a.problem_id == sub.problem_id) =
                  true
              · rw [show (fun x =>
                    if x.user_id == sub.user_id && x.problem_id == sub.problem_id then
                      applyBestUpdate data sub.id x
                    else x) a = applyBestUpdate data sub.id a from if_pos hc]
                have hfmem : afound ∈ st.assignments := List.mem_of_find?_eq_some hasg
                have hfp := List.find?_some hasg
                have hak : a.user_id = sub.user_id ∧ a.problem_id = sub.problem_id := by
                  simpa using hc
                have hfk : afound.user_id = sub.user_id ∧
                    afound.problem_id = sub.problem_id := by
                  simpa using hfp
                have haf : a = afound :=
                  mem_eq_of_unique_keys hU ha hfmem (hak.1.trans hfk.1.symm)
                    (hak.2.trans hfk.2.symm)
                exact ⟨rfl, rfl, by rw [haf]; exact le_of_lt hgt⟩
              · rw [show (fun x =>
                    if x.user_id == sub.user_id && x.problem_id == sub.problem_id then
                      applyBestUpdate data sub.id x
                    else x) a = a from if_neg hc]
                exact ⟨rfl, rfl, le_refl _⟩
          · have hcall : submission_callback cfgKey sentKey data st =
                ({ st with submissions := st.submissions.map (fun s =>
                    if s.id == data.submission_id then applyCallbackFields data s
                    else s) }, CallbackOutcome.success) := by
              unfold submission_callback
              rw [hauth]
              simp only [eq_self_iff_true, if_true, hsub, hasg, if_neg hgt]
            rw [hcall]
            exact ⟨hU, fun a ha => ⟨a, ha, rfl, rfl, le_refl _⟩⟩
    · have hauth' : get_user_from_header cfgKey sentKey = false := by
        simpa using hauth
      have hcall : submission_callback cfgKey sentKey data st =
          (st, CallbackOutcome.forbidden) := by
        unfold submission_callback
        rw [hauth']
        simp
      rw [hcall]
      exact ⟨hU, fun a ha => ⟨a, ha, rfl, rfl, le_refl _⟩⟩
  · intro st studentId pid newSubId form dErr
    cases hp : findProblem st pid with
    | none =>
      have hcall : view_problem_post st studentId pid form newSubId dErr =
          (st, SubmitOutcome.problemGone) := by
        unfold view_problem_post
        simp only [hp]
      rw [hcall]
    | some problem =>
      cases ha : findAssignment st studentId pid with
      | none =>
        have hcall : view_problem_post st studentId pid form newSubId dErr =
            (st, SubmitOutcome.notAssigned) := by
          unfold view_problem_post
          simp only [hp, ha]
        rw [hcall]
      | some asg =>
        by_cases hf : submissionFormValid form = true
        · by_cases ho : problem.is_open = true
          · rw [view_problem_post_guards_pass st studentId pid newSubId form dErr
              problem asg hp ha hf ho]
            unfold buildAndDispatch
            cases dErr with
            | none => rfl
            | some e => rfl
          · have ho2 : problem.is_open = false := by simpa using ho
            have hcall : view_problem_post st studentId pid form newSubId dErr =
                (st, SubmitOutcome.closed) := by
              unfold view_problem_post
              simp only [hp, ha, hf, if_true, ho2, Bool.false_eq_true, if_false]
            rw [hcall]
        · have hf2 : submissionFormValid form = false := by simpa using hf
          have hcall : view_problem_post st studentId pid form newSubId dErr =
              (st, SubmitOutcome.formRejected) := by
            unfold view_problem_post
            simp only [hp, ha, hf2, Bool.false_eq_true, if_false]
          rw [hcall]

theorem C7_assignment_invariants_witness :
    uniqueAssignmentPairs
      (submission_callback (some "sekrit") (some "sekrit") cbFail stPolled).1 :=
  (C7_assignment_invariants.1 (some "sekrit") (some "sekrit") cbFail stPolled
    (by simp [uniqueAssignmentPairs, stPolled])).1
